import Mathlib

/-!
Verification of the `welcome` module (src/main.py): a shallow embedding of the
join-announcement lifecycle registry, the greet button, the greet counters,
template rendering, and the join-settings command, together with theorems
settling the specification's claims.
-/

/-- Entry stored in the pending-join registry `_active_join_messages`:
the sent announcement message and the scheduled deletion task (line 209 of the
source stores the tuple `(sent_msg, delete_task)`).  The task component is an
`Option` because `send_formatted_message` returns no task when no deletion was
scheduled. -/
structure Entry where
  msgId : Nat
  task : Option Nat
  deriving DecidableEq

/-- The pending registry `_active_join_messages`, keyed by (guild id, member id).
The source keeps a nested dict guild -> member -> entry; lookup, insert and pop
of a (guild, member) key behave exactly as on this flattened map (a missing or
empty inner dict is a `none` lookup). -/
abbrev Reg := Nat × Nat → Option Entry

/-- Point update of the registry. -/
def rset (r : Reg) (k : Nat × Nat) (v : Option Entry) : Reg :=
  fun k2 => if k2 = k then v else r k2

/-- Observable system state for the lifecycle claims: the registry, which
messages currently exist on the channel, how many delete calls have reached the
channel per message id, and which deletion tasks have been cancelled. -/
structure SysState where
  reg : Reg
  liveMsgs : Nat → Bool
  attempts : Nat → Nat
  cancelled : Nat → Bool

/-- State at cog construction (line 34): empty registry, nothing sent. -/
def initSys : SysState :=
  { reg := fun _ => none
  , liveMsgs := fun _ => false
  , attempts := fun _ => 0
  , cancelled := fun _ => false }

/-- Return value of `send_formatted_message` (lines 99-138): `(None, None)` on a
failed send; on success the sent message together with a scheduled deletion task
exactly when `delete_after and delete_after > 0` (line 126), i.e. when
`delete_after` is not `None`, is truthy and is positive. -/
def send_formatted_message (sendOk : Bool) (msgId taskId : Nat)
    (delete_after : Option Int) : Option Nat × Option Nat :=
  if sendOk then
    match delete_after with
    | some d => if d ≠ 0 ∧ 0 < d then (some msgId, some taskId) else (some msgId, none)
    | none => (some msgId, none)
  else (none, none)

/-- Body of the scheduled deletion task `delete_later` (lines 127-132): after the
sleep it issues exactly one delete call for its message; any exception is caught
and logged.  It never touches the pending registry. -/
def delete_later_run (s : SysState) (msgId : Nat) : SysState :=
  { s with
    liveMsgs := fun i => if i = msgId then false else s.liveMsgs i
  , attempts := fun i => if i = msgId then s.attempts i + 1 else s.attempts i }

/-- Join columns of a `welcome_config` row as read by `on_member_join`
(line 165); each column may be NULL. -/
structure JoinRow where
  join_channel_id : Option Nat
  join_enabled : Option Bool
  join_title : Option String
  join_duration : Option Int

/-- The `enabled` local of `on_member_join` (lines 158, 172-173): `False` unless
the row exists and its `join_enabled` column is not NULL. -/
def join_enabled_flag (row : Option JoinRow) : Bool :=
  match row with
  | some r => r.join_enabled.getD false
  | none => false

/-- Whether the `channel` local of `on_member_join` (lines 157, 170-171) resolves
to an actual channel: the row exists, its `join_channel_id` is not NULL and
`guild.get_channel` finds it (`chanResolved`). -/
def join_channel_found (row : Option JoinRow) (chanResolved : Bool) : Bool :=
  match row with
  | some r => r.join_channel_id.isSome && chanResolved
  | none => false

/-- The `join_duration` local of `on_member_join` (lines 161, 176-177): `0`
unless the row exists and its `join_duration` column is not NULL. -/
def join_duration_val (row : Option JoinRow) : Int :=
  match row with
  | some r => r.join_duration.getD 0
  | none => 0

/-- Registry and channel effect of `on_member_join` (lines 154-209). `dbReady`
is the guard on line 155, `chanResolved` whether `guild.get_channel` finds the
configured channel, `msgs` the configured join templates, `sendOk` whether the
announcement send succeeds, and `msgId`/`taskId` are the fresh identities of the
sent message and of the created deletion task.  A pending entry is registered
(line 206-209) exactly when the send returned a message and
`join_duration and join_duration > 0`; it overwrites any prior entry for the
(guild, member) key. -/
def on_member_join (s : SysState) (g m : Nat) (dbReady : Bool)
    (row : Option JoinRow) (chanResolved : Bool) (msgs : List String)
    (sendOk : Bool) (msgId taskId : Nat) : SysState :=
  if !dbReady then s
  else if !(join_enabled_flag row) then s
  else if !(join_channel_found row chanResolved) then s
  else if msgs.isEmpty then s
  else
    match send_formatted_message sendOk msgId taskId (some (join_duration_val row)) with
    | (some mid, task) =>
      let s1 : SysState :=
        { s with liveMsgs := fun i => if i = mid then true else s.liveMsgs i }
      if join_duration_val row ≠ 0 ∧ 0 < join_duration_val row then
        { s1 with reg := rset s1.reg (g, m) (some ⟨mid, task⟩) }
      else s1
    | (none, _) => s

/-- Outcome of the `msg.delete()` call in `on_member_remove` (line 221): success,
a NotFound error (caught and ignored on lines 222-223), or any other error
(caught only by the outer handler on line 226, which logs and thereby skips the
task cancellation on lines 224-225). -/
inductive DelOutcome
  | ok
  | notFound
  | err
  deriving DecidableEq

/-- Lines 215-227 of `on_member_remove`: pop the pending entry for
(guild id, member id) if present, attempt to delete its message (one call
reaches the channel whatever the outcome; the message disappears unless the
delete failed with an error other than NotFound), and cancel the stored task
unless the delete raised an error other than NotFound. -/
def on_member_remove_pending_part (s : SysState) (g m : Nat)
    (outcome : DelOutcome) : SysState :=
  match s.reg (g, m) with
  | none => s
  | some e =>
    let s1 : SysState := { s with reg := rset s.reg (g, m) none }
    let s2 : SysState :=
      { s1 with
        liveMsgs := fun i =>
          if i = e.msgId ∧ outcome ≠ DelOutcome.err then false else s1.liveMsgs i
      , attempts := fun i => if i = e.msgId then s1.attempts i + 1 else s1.attempts i }
    match outcome with
    | DelOutcome.err => s2
    | _ =>
      match e.task with
      | some t => { s2 with cancelled := fun j => if j = t then true else s2.cancelled j }
      | none => s2

/-- Leave columns of a `welcome_config` row as read by `on_member_remove`
(line 232); each column may be NULL. -/
structure LeaveRow where
  leave_channel_id : Option Nat
  leave_enabled : Option Bool
  leave_title : Option String
  leave_duration : Option Int

/-- The `enabled` local of `on_member_remove` (lines 238, 244-245). -/
def leave_enabled_flag (row : Option LeaveRow) : Bool :=
  match row with
  | some r => r.leave_enabled.getD false
  | none => false

/-- Whether the `channel` local of `on_member_remove` (lines 237, 242-243)
resolves to an actual channel. -/
def leave_channel_found (row : Option LeaveRow) (chanResolved : Bool) : Bool :=
  match row with
  | some r => r.leave_channel_id.isSome && chanResolved
  | none => false

/-- The `leave_duration` local of `on_member_remove` (lines 240, 248-249). -/
def leave_duration_val (row : Option LeaveRow) : Int :=
  match row with
  | some r => r.leave_duration.getD 0
  | none => 0

/-- Full `on_member_remove` (lines 211-272): the db-ready guard (line 213), then
the pending-entry part (lines 215-227), then — whatever the pending part found —
the leave-announcement flow (lines 229-272): load the leave config, resolve the
channel, pick a leave template and dispatch it with its own auto-delete
duration; the dispatched leave message is never tracked in the registry.
Returns the new state and whether a leave announcement was dispatched. -/
def on_member_remove (s : SysState) (g m : Nat) (outcome : DelOutcome)
    (dbReady : Bool) (row : Option LeaveRow) (chanResolved : Bool)
    (msgs : List String) (sendOk : Bool) (newMsgId newTaskId : Nat) :
    SysState × Bool :=
  if !dbReady then (s, false)
  else
    let s1 := on_member_remove_pending_part s g m outcome
    if !(leave_enabled_flag row) then (s1, false)
    else if !(leave_channel_found row chanResolved) then (s1, false)
    else if msgs.isEmpty then (s1, false)
    else
      match send_formatted_message sendOk newMsgId newTaskId (some (leave_duration_val row)) with
      | (some mid, _) =>
        ({ s1 with liveMsgs := fun i => if i = mid then true else s1.liveMsgs i }, true)
      | (none, _) => (s1, false)

/-- Concrete join config row used in lifecycle counterexamples: channel 7,
enabled, title Welcome, auto-delete 30 seconds. -/
def rowJoin30 : Option JoinRow :=
  some ⟨some 7, some true, some "Welcome", some 30⟩

/-- State after member 2 joined guild 1 with a positive auto-delete duration:
message 10 was sent and entry (message 10, task 20) registered. -/
def sJoined : SysState :=
  on_member_join initSys 1 2 true rowJoin30 true ["hi"] true 10 20

/-- State after the deletion timer of `sJoined` ran to completion. -/
def sTimerDone : SysState :=
  delete_later_run sJoined 10

/-- Concrete leave config row used in lifecycle theorems: channel 8, enabled,
title Goodbye, no auto-delete. -/
def rowLeave : Option LeaveRow :=
  some ⟨some 8, some true, some "Goodbye", some 0⟩

/-- Join config row with auto-delete duration 0 (never delete). -/
def rowJoin0 : Option JoinRow :=
  some ⟨some 7, some true, some "Welcome", some 0⟩

/-- State holding a stale pending entry (message 5, task 6) for guild 1,
member 2. -/
def sStale : SysState :=
  { initSys with reg := rset initSys.reg (1, 2) (some ⟨5, some 6⟩) }

/-- Shared helper: the pending part of `on_member_remove` always leaves the
registry without an entry for the handled (guild, member) pair. -/
theorem pending_part_reg_none (s : SysState) (g m : Nat) (outcome : DelOutcome) :
    (on_member_remove_pending_part s g m outcome).reg (g, m) = none := by
  unfold on_member_remove_pending_part
  cases h : s.reg (g, m) with
  | none => exact h
  | some e => cases outcome <;> cases ht : e.task <;> simp [ht, rset]

/-- C1 counterexample: member 2 joined guild 1 with auto-delete 30s and the
deletion timer then ran to completion.  Contrary to the claim, the pending
registry still contains the pair's entry (the timer task does not remove its
own registry entry), and when the member subsequently leaves, a second deletion
attempt for message 10 reaches the channel. -/
theorem c1_counterexample :
    sTimerDone.reg (1, 2) = some ⟨10, some 20⟩
    ∧ (on_member_remove_pending_part sTimerDone 1 2 DelOutcome.notFound).attempts 10 = 2 := by
  decide

/-- C1 (amended): only the member-leave handler removes a pair's pending
registry entry — after it runs, the registry holds no entry for the pair,
whatever the delete outcome.  The timer task `delete_later` never modifies the
registry, so after the deadline elapses the entry persists until the member
leaves, at which point the leave handler's (second) deletion attempt is
tolerated as not-found. -/
theorem c1_amended (s : SysState) (g m i : Nat) (outcome : DelOutcome) :
    (on_member_remove_pending_part s g m outcome).reg (g, m) = none
    ∧ (delete_later_run s i).reg (g, m) = s.reg (g, m) :=
  ⟨pending_part_reg_none s g m outcome, rfl⟩

/-- Shared helper: the registry effect of `on_member_join` is either nothing at
all, or — when every guard passed, the send succeeded and the configured join
duration is positive — the registration of the fresh entry for the pair. -/
theorem on_member_join_reg_spec (s : SysState) (g m : Nat) (dbReady : Bool)
    (row : Option JoinRow) (chanResolved : Bool) (msgs : List String)
    (sendOk : Bool) (msgId taskId : Nat) :
    ((on_member_join s g m dbReady row chanResolved msgs sendOk msgId taskId).reg = s.reg
      ∧ ¬(dbReady = true ∧ join_enabled_flag row = true
          ∧ join_channel_found row chanResolved = true ∧ msgs.isEmpty = false
          ∧ sendOk = true ∧ 0 < join_duration_val row))
    ∨ (dbReady = true ∧ join_enabled_flag row = true
        ∧ join_channel_found row chanResolved = true ∧ msgs.isEmpty = false
        ∧ sendOk = true ∧ 0 < join_duration_val row
        ∧ (on_member_join s g m dbReady row chanResolved msgs sendOk msgId taskId).reg
            = rset s.reg (g, m) (some ⟨msgId, some taskId⟩)) := by
  unfold on_member_join
  cases dbReady with
  | false => exact Or.inl ⟨rfl, by simp⟩
  | true =>
    cases he : join_enabled_flag row with
    | false => exact Or.inl ⟨by simp, by simp [he]⟩
    | true =>
      cases hc : join_channel_found row chanResolved with
      | false => exact Or.inl ⟨by simp, by simp [hc]⟩
      | true =>
        cases hm : msgs.isEmpty with
        | true => exact Or.inl ⟨by simp, by simp [hm]⟩
        | false =>
          cases sendOk with
          | false => exact Or.inl ⟨by simp [send_formatted_message], by simp⟩
          | true =>
            by_cases hd : 0 < join_duration_val row
            · refine Or.inr ⟨rfl, rfl, rfl, rfl, rfl, hd, ?_⟩
              have hne : join_duration_val row ≠ 0 := ne_of_gt hd
              simp [send_formatted_message, hne, hd]
            · refine Or.inl ⟨?_, by simp [hd]⟩
              simp [send_formatted_message, hd]

/-- C2 counterexample: the registry already holds a stale entry for guild 1,
member 2 (reachable, e.g., because the entry's timer already fired: the timer
does not clean up the registry; the join `test` command then re-invokes
`on_member_join` for the member).  A join handled with configured duration 0
and a successful send leaves that stale entry in place, contradicting the
claim that no pending entry exists for the pair afterwards. -/
theorem c2_counterexample :
    (on_member_join sStale 1 2 true rowJoin0 true ["hi"] true 10 20).reg (1, 2)
      = some ⟨5, some 6⟩ := by
  decide

/-- C2 (amended): a pending entry is created, overwriting the pair's slot, if
and only if every guard passed, the send succeeded and the configured join
duration is strictly positive; in every other case the registry is left
completely unchanged — so no new entry is created, but a pre-existing stale
entry for the pair is not removed either. -/
theorem c2_amended (s : SysState) (g m : Nat) (dbReady : Bool)
    (row : Option JoinRow) (chanResolved : Bool) (msgs : List String)
    (sendOk : Bool) (msgId taskId : Nat) :
    (dbReady = true → join_enabled_flag row = true →
      join_channel_found row chanResolved = true → msgs.isEmpty = false →
      sendOk = true → 0 < join_duration_val row →
      (on_member_join s g m dbReady row chanResolved msgs sendOk msgId taskId).reg (g, m)
        = some ⟨msgId, some taskId⟩)
    ∧ (¬(dbReady = true ∧ join_enabled_flag row = true
          ∧ join_channel_found row chanResolved = true ∧ msgs.isEmpty = false
          ∧ sendOk = true ∧ 0 < join_duration_val row) →
        ∀ k, (on_member_join s g m dbReady row chanResolved msgs sendOk msgId taskId).reg k
          = s.reg k) := by
  rcases on_member_join_reg_spec s g m dbReady row chanResolved msgs sendOk msgId taskId with
    ⟨hr, hn⟩ | ⟨h1, h2, h3, h4, h5, h6, hr⟩
  · constructor
    · intro u1 u2 u3 u4 u5 u6
      exact absurd ⟨u1, u2, u3, u4, u5, u6⟩ hn
    · intro _ k
      rw [hr]
  · constructor
    · intro _ _ _ _ _ _
      rw [hr]
      simp [rset]
    · intro hcontra
      exact absurd ⟨h1, h2, h3, h4, h5, h6⟩ hcontra

/-- C2 witness: on fresh state, a join with duration 30 and successful send
registers the new entry. -/
theorem c2_witness :
    (0 : Int) < join_duration_val rowJoin30
    ∧ (on_member_join initSys 1 2 true rowJoin30 true ["hi"] true 10 20).reg (1, 2)
      = some ⟨10, some 20⟩ :=
  ⟨by decide,
    (c2_amended initSys 1 2 true rowJoin30 true ["hi"] true 10 20).1
      rfl (by decide) (by decide) (by decide) rfl (by decide)⟩

/-- C4: registering a join announcement for a pair that already has a pending
entry overwrites it — afterwards the registry maps the pair to the freshly sent
message and its new deletion task — and the registration performs no cleanup of
the prior entry: no deletion attempt is made, no task is cancelled, other
registry keys are untouched and no message except the newly sent one changes
liveness. -/
theorem c4_theorem (s : SysState) (g m : Nat) (row : Option JoinRow)
    (chanResolved : Bool) (msgs : List String) (msgId taskId : Nat) (prevE : Entry)
    (hprev : s.reg (g, m) = some prevE)
    (hen : join_enabled_flag row = true)
    (hch : join_channel_found row chanResolved = true)
    (hmsgs : msgs.isEmpty = false)
    (hdur : 0 < join_duration_val row) :
    (on_member_join s g m true row chanResolved msgs true msgId taskId).reg (g, m)
      = some ⟨msgId, some taskId⟩
    ∧ (∀ k, k ≠ (g, m) →
        (on_member_join s g m true row chanResolved msgs true msgId taskId).reg k = s.reg k)
    ∧ (on_member_join s g m true row chanResolved msgs true msgId taskId).attempts = s.attempts
    ∧ (on_member_join s g m true row chanResolved msgs true msgId taskId).cancelled = s.cancelled
    ∧ (∀ i, i ≠ msgId →
        (on_member_join s g m true row chanResolved msgs true msgId taskId).liveMsgs i
          = s.liveMsgs i) := by
  have hne : join_duration_val row ≠ 0 := ne_of_gt hdur
  refine ⟨?_, ?_, ?_, ?_, ?_⟩
  · simp [on_member_join, hen, hch, hmsgs, send_formatted_message, hne, hdur, rset]
  · intro k hk
    simp [on_member_join, hen, hch, hmsgs, send_formatted_message, hne, hdur, rset, hk]
  · simp [on_member_join, hen, hch, hmsgs, send_formatted_message, hne, hdur]
  · simp [on_member_join, hen, hch, hmsgs, send_formatted_message, hne, hdur]
  · intro i hi
    simp [on_member_join, hen, hch, hmsgs, send_formatted_message, hne, hdur, hi]

/-- C4 witness: concrete overwrite of the stale entry (5, task 6) by the fresh
entry (10, task 20), with the attempt counters untouched. -/
theorem c4_witness :
    sStale.reg (1, 2) = some ⟨5, some 6⟩
    ∧ (0 : Int) < join_duration_val rowJoin30
    ∧ (on_member_join sStale 1 2 true rowJoin30 true ["hi"] true 10 20).reg (1, 2)
      = some ⟨10, some 20⟩
    ∧ (on_member_join sStale 1 2 true rowJoin30 true ["hi"] true 10 20).attempts
      = sStale.attempts :=
  ⟨by decide, by decide,
    (c4_theorem sStale 1 2 rowJoin30 true ["hi"] 10 20 ⟨5, some 6⟩
      (by decide) (by decide) (by decide) (by decide) (by decide)).1,
    (c4_theorem sStale 1 2 rowJoin30 true ["hi"] 10 20 ⟨5, some 6⟩
      (by decide) (by decide) (by decide) (by decide) (by decide)).2.2.1⟩

/-- Shared helper: the leave-announcement flow of `on_member_remove` changes
neither the registry nor the attempt counters nor the cancellation flags —
those components of the final state are exactly those left by the pending part. -/
theorem remove_leave_frame (s : SysState) (g m : Nat) (outcome : DelOutcome)
    (row : Option LeaveRow) (chanResolved : Bool) (msgs : List String)
    (sendOk : Bool) (newMsgId newTaskId : Nat) :
    (on_member_remove s g m outcome true row chanResolved msgs sendOk newMsgId newTaskId).1.reg
      = (on_member_remove_pending_part s g m outcome).reg
    ∧ (on_member_remove s g m outcome true row chanResolved msgs sendOk newMsgId newTaskId).1.attempts
      = (on_member_remove_pending_part s g m outcome).attempts
    ∧ (on_member_remove s g m outcome true row chanResolved msgs sendOk newMsgId newTaskId).1.cancelled
      = (on_member_remove_pending_part s g m outcome).cancelled := by
  unfold on_member_remove
  cases hle : leave_enabled_flag row <;>
    cases hlc : leave_channel_found row chanResolved <;>
      cases hme : msgs.isEmpty <;>
        cases sendOk <;>
          simp [send_formatted_message] <;>
            by_cases hd : leave_duration_val row ≠ 0 ∧ 0 < leave_duration_val row <;>
              simp [hd]

/-- Shared helper: when the pending part finds an entry whose task is `t` and
the delete attempt does not fail with a non-NotFound error, the task `t` is
cancelled. -/
theorem pending_part_cancels (s : SysState) (g m : Nat) (outcome : DelOutcome)
    (e : Entry) (t : Nat) (he : s.reg (g, m) = some e) (ht : e.task = some t)
    (ho : outcome ≠ DelOutcome.err) :
    (on_member_remove_pending_part s g m outcome).cancelled t = true := by
  unfold on_member_remove_pending_part
  rw [he]
  cases outcome with
  | err => exact absurd rfl ho
  | ok => simp [ht]
  | notFound => simp [ht]

/-- Shared helper: when the pending part finds an entry, exactly one delete call
for the entry's message reaches the channel. -/
theorem pending_part_attempt (s : SysState) (g m : Nat) (outcome : DelOutcome)
    (e : Entry) (he : s.reg (g, m) = some e) :
    (on_member_remove_pending_part s g m outcome).attempts e.msgId
      = s.attempts e.msgId + 1 := by
  unfold on_member_remove_pending_part
  rw [he]
  cases outcome <;> cases ht : e.task <;> simp [ht]

/-- C3 counterexample: guild 1, member 2 has a pending entry (message 10,
task 20); the member leaves and the announcement delete fails with an error
other than NotFound (e.g. missing permission).  The entry is removed, but the
outstanding deletion task is NOT cancelled, contrary to the claim. -/
theorem c3_counterexample :
    sJoined.reg (1, 2) = some ⟨10, some 20⟩
    ∧ (on_member_remove sJoined 1 2 DelOutcome.err true rowLeave true ["bye"] true 50 60).1.cancelled 20
      = false
    ∧ (on_member_remove sJoined 1 2 DelOutcome.err true rowLeave true ["bye"] true 50 60).1.reg (1, 2)
      = none := by
  decide

/-- C3 (amended): on a member leave with the database ready, the handler removes
the pair's pending entry (the registry afterwards is exactly the registry left
by the pending part, so the leave announcement is never tracked); if an entry
was present, one delete call for its message reaches the channel, and the
stored deletion task is cancelled provided the delete succeeded or failed with
NotFound (any other delete error is logged and skips the cancellation); and the
leave-announcement flow proceeds with an outcome that is independent of the
pending-registry state. -/
theorem c3_amended (s : SysState) (g m : Nat) (outcome : DelOutcome)
    (row : Option LeaveRow) (chanResolved : Bool) (msgs : List String)
    (sendOk : Bool) (newMsgId newTaskId : Nat) :
    (on_member_remove s g m outcome true row chanResolved msgs sendOk newMsgId newTaskId).1.reg
      = (on_member_remove_pending_part s g m outcome).reg
    ∧ (on_member_remove s g m outcome true row chanResolved msgs sendOk newMsgId newTaskId).1.reg (g, m)
      = none
    ∧ (∀ e t, s.reg (g, m) = some e → e.task = some t → outcome ≠ DelOutcome.err →
        (on_member_remove s g m outcome true row chanResolved msgs sendOk newMsgId newTaskId).1.cancelled t
          = true)
    ∧ (∀ e, s.reg (g, m) = some e →
        (on_member_remove s g m outcome true row chanResolved msgs sendOk newMsgId newTaskId).1.attempts e.msgId
          = s.attempts e.msgId + 1)
    ∧ (∀ s2 : SysState,
        (on_member_remove s2 g m outcome true row chanResolved msgs sendOk newMsgId newTaskId).2
          = (on_member_remove s g m outcome true row chanResolved msgs sendOk newMsgId newTaskId).2) := by
  obtain ⟨hreg, hatt, hcan⟩ :=
    remove_leave_frame s g m outcome row chanResolved msgs sendOk newMsgId newTaskId
  refine ⟨hreg, ?_, ?_, ?_, ?_⟩
  · rw [hreg]
    exact pending_part_reg_none s g m outcome
  · intro e t he ht ho
    rw [hcan]
    exact pending_part_cancels s g m outcome e t he ht ho
  · intro e he
    rw [hatt]
    exact pending_part_attempt s g m outcome e he
  · intro s2
    unfold on_member_remove
    cases hle : leave_enabled_flag row <;>
      cases hlc : leave_channel_found row chanResolved <;>
        cases hme : msgs.isEmpty <;>
          cases sendOk <;>
            simp [send_formatted_message] <;>
              by_cases hd : leave_duration_val row ≠ 0 ∧ 0 < leave_duration_val row <;>
                simp [hd]

/-- C3 witness: with a pending entry present and a delete outcome of success,
the entry is removed and the stored task 20 is cancelled. -/
theorem c3_witness :
    sJoined.reg (1, 2) = some ⟨10, some 20⟩
    ∧ (on_member_remove sJoined 1 2 DelOutcome.ok true rowLeave true ["bye"] true 50 60).1.cancelled 20
      = true :=
  ⟨by decide,
    (c3_amended sJoined 1 2 DelOutcome.ok rowLeave true ["bye"] true 50 60).2.2.1
      ⟨10, some 20⟩ 20 (by decide) rfl (by decide)⟩

/-- The `welcome_greet_counts` table, keyed by (guild id, greeter id); a key
without a row maps to `none`. -/
abbrev GreetDB := Nat × Nat → Option Int

/-- The `increment_greet_count` operation (lines 80-88): upsert that inserts a
row with count 1 when the key has no row and otherwise adds 1 to the stored
count. -/
def increment_greet_count (db : GreetDB) (guild_id greeter_id : Nat) : GreetDB :=
  fun k => if k = (guild_id, greeter_id) then some ((db k).getD 0 + 1) else db k

/-- The `get_greet_count` query (lines 90-97): the stored count if a row
exists, otherwise 0. -/
def get_greet_count (db : GreetDB) (guild_id greeter_id : Nat) : Int :=
  (db (guild_id, greeter_id)).getD 0

/-- The label written by the button callback (line 525). -/
def welcomed_label (n : Nat) : String :=
  "👋 Welcomed (" ++ Nat.repr n ++ ")"

/-- Combined state of a `WelcomeButton` (its greeter list and displayed label)
and of the persisted greet counters it updates through its parent cog. -/
structure CallbackState where
  greeters : List Nat
  label : String
  db : GreetDB

/-- `WelcomeButton.__init__` (lines 500-507): initial label, empty greeter
list. -/
def welcome_button_init (db : GreetDB) : CallbackState :=
  { greeters := [], label := "👋 Welcome", db := db }

/-- Visible outcome of one button press: the two rejection notices of lines
511 and 516, or acceptance. -/
inductive PressResult
  | rejectedSelf
  | rejectedRepeat
  | accepted
  deriving DecidableEq

/-- `WelcomeButton.callback` (lines 509-529) for a press by `presser`: reject a
self-greet, reject a repeat greet, otherwise increment the presser's persisted
greet counter, append the presser to the greeter list and refresh the label
from the new list length. -/
def welcome_button_callback (memberId guildId : Nat) (s : CallbackState)
    (presser : Nat) : CallbackState × PressResult :=
  if presser = memberId then (s, PressResult.rejectedSelf)
  else if presser ∈ s.greeters then (s, PressResult.rejectedRepeat)
  else
    let db2 := increment_greet_count s.db guildId presser
    let greeters2 := s.greeters ++ [presser]
    ({ greeters := greeters2, label := welcomed_label greeters2.length, db := db2 },
      PressResult.accepted)

/-- A sequence of presses on one announcement's button. -/
def runPresses (memberId guildId : Nat) (s : CallbackState) (presses : List Nat) :
    CallbackState :=
  presses.foldl (fun st p => (welcome_button_callback memberId guildId st p).1) s

/-- Shared helper: greeter list after one press. -/
theorem step_greeters (m g : Nat) (s : CallbackState) (p : Nat) :
    (welcome_button_callback m g s p).1.greeters
      = if p = m ∨ p ∈ s.greeters then s.greeters else s.greeters ++ [p] := by
  unfold welcome_button_callback
  by_cases h1 : p = m
  · simp [h1]
  · by_cases h2 : p ∈ s.greeters <;> simp [h1, h2]

/-- Shared helper: stored counters after one press. -/
theorem step_db (m g : Nat) (s : CallbackState) (p : Nat) :
    (welcome_button_callback m g s p).1.db
      = if p = m ∨ p ∈ s.greeters then s.db else increment_greet_count s.db g p := by
  unfold welcome_button_callback
  by_cases h1 : p = m
  · simp [h1]
  · by_cases h2 : p ∈ s.greeters <;> simp [h1, h2]

/-- Shared helper: label after one press. -/
theorem step_label (m g : Nat) (s : CallbackState) (p : Nat) :
    (welcome_button_callback m g s p).1.label
      = if p = m ∨ p ∈ s.greeters then s.label
        else welcomed_label (s.greeters.length + 1) := by
  unfold welcome_button_callback
  by_cases h1 : p = m
  · simp [h1]
  · by_cases h2 : p ∈ s.greeters <;> simp [h1, h2]

/-- Shared helper: a user is in the greeter list after a press sequence exactly
when they were already in it or pressed at least once and are not the greeted
member. -/
theorem runPresses_mem (m g : Nat) (presses : List Nat) :
    ∀ (s : CallbackState) (u : Nat),
      u ∈ (runPresses m g s presses).greeters
        ↔ u ∈ s.greeters ∨ (u ∈ presses ∧ u ≠ m) := by
  induction presses with
  | nil =>
    intro s u
    simp [runPresses]
  | cons p ps ih =>
    intro s u
    have hrun : runPresses m g s (p :: ps)
        = runPresses m g (welcome_button_callback m g s p).1 ps := rfl
    rw [hrun, ih, step_greeters]
    by_cases h1 : p = m ∨ p ∈ s.greeters
    · rw [if_pos h1]
      by_cases h2 : u = p
      · subst h2
        rcases h1 with h1 | h1
        · subst h1
          simp
        · simp [h1]
      · simp [List.mem_cons, h2]
    · rw [if_neg h1]
      push_neg at h1
      by_cases h2 : u = p
      · subst h2
        simp [List.mem_append, h1.1, h1.2]
      · simp [List.mem_append, List.mem_cons, h2]

/-- Shared helper: press sequences preserve distinctness of the greeter list. -/
theorem runPresses_nodup (m g : Nat) (presses : List Nat) :
    ∀ s : CallbackState, s.greeters.Nodup → (runPresses m g s presses).greeters.Nodup := by
  induction presses with
  | nil =>
    intro s h
    exact h
  | cons p ps ih =>
    intro s h
    have hrun : runPresses m g s (p :: ps)
        = runPresses m g (welcome_button_callback m g s p).1 ps := rfl
    rw [hrun]
    apply ih
    rw [step_greeters]
    by_cases h1 : p = m ∨ p ∈ s.greeters
    · rw [if_pos h1]
      exact h
    · rw [if_neg h1]
      push_neg at h1
      refine List.nodup_append.mpr ⟨h, List.nodup_singleton p, ?_⟩
      intro a ha hb
      rw [List.mem_singleton] at hb
      subst hb
      exact h1.2 ha

/-- Shared helper: after a press sequence, the stored counter of (guild, u) has
been bumped exactly once when u pressed at least once while eligible, and is
untouched otherwise. -/
theorem runPresses_db (m g : Nat) (presses : List Nat) :
    ∀ (s : CallbackState) (u : Nat),
      (runPresses m g s presses).db (g, u)
        = if u ≠ m ∧ u ∈ presses ∧ u ∉ s.greeters
          then some ((s.db (g, u)).getD 0 + 1)
          else s.db (g, u) := by
  induction presses with
  | nil =>
    intro s u
    simp [runPresses]
  | cons p ps ih =>
    intro s u
    have hrun : runPresses m g s (p :: ps)
        = runPresses m g (welcome_button_callback m g s p).1 ps := rfl
    rw [hrun, ih, step_db, step_greeters]
    by_cases h1 : p = m ∨ p ∈ s.greeters
    · rw [if_pos h1, if_pos h1]
      by_cases h2 : u = p
      · subst h2
        rcases h1 with h1 | h1
        · subst h1
          simp
        · simp [h1]
      · simp [List.mem_cons, h2]
    · rw [if_neg h1, if_neg h1]
      push_neg at h1
      by_cases h2 : u = p
      · subst h2
        simp [List.mem_append, List.mem_cons, h1.1, h1.2, increment_greet_count]
      · have hk : ((g, u) : Nat × Nat) ≠ (g, p) := by
          simp [Prod.ext_iff, h2]
        simp [List.mem_append, List.mem_cons, h2, increment_greet_count, hk]

/-- Shared helper: press sequences never decrease any stored greet counter. -/
theorem runPresses_db_mono (m g : Nat) (presses : List Nat) :
    ∀ (s : CallbackState) (k : Nat × Nat),
      (s.db k).getD 0 ≤ ((runPresses m g s presses).db k).getD 0 := by
  induction presses with
  | nil =>
    intro s k
    simp [runPresses]
  | cons p ps ih =>
    intro s k
    have hrun : runPresses m g s (p :: ps)
        = runPresses m g (welcome_button_callback m g s p).1 ps := rfl
    rw [hrun]
    refine le_trans ?_ (ih _ k)
    rw [step_db]
    by_cases h1 : p = m ∨ p ∈ s.greeters
    · rw [if_pos h1]
    · rw [if_neg h1]
      by_cases hk : k = (g, p)
      · subst hk
        rw [show increment_greet_count s.db g p (g, p) = some ((s.db (g, p)).getD 0 + 1)
          from by simp [increment_greet_count]]
        simp only [Option.getD_some]
        omega
      · rw [show increment_greet_count s.db g p k = s.db k
          from by simp [increment_greet_count, hk]]

/-- C5: a greet-button press by the greeted member themself, or by a presser
already in the greeter list, is rejected with one of the two user-visible
notices and changes nothing: the returned state (greeter list, label and
persisted counters) is the input state. -/
theorem c5_theorem (memberId guildId : Nat) (s : CallbackState) (presser : Nat)
    (h : presser = memberId ∨ presser ∈ s.greeters) :
    (welcome_button_callback memberId guildId s presser).1 = s
    ∧ ((welcome_button_callback memberId guildId s presser).2 = PressResult.rejectedSelf
        ∨ (welcome_button_callback memberId guildId s presser).2 = PressResult.rejectedRepeat) := by
  unfold welcome_button_callback
  rcases h with h | h
  · simp [h]
  · by_cases h2 : presser = memberId
    · simp [h2]
    · simp [h2, h]

/-- C5 witness: member 7 pressing their own greet button is rejected with no
state change. -/
theorem c5_witness :
    ((7 : Nat) = 7 ∨ (7 : Nat) ∈ (welcome_button_init (fun _ => none)).greeters)
    ∧ (welcome_button_callback 7 1 (welcome_button_init (fun _ => none)) 7).1
      = welcome_button_init (fun _ => none)
    ∧ ((welcome_button_callback 7 1 (welcome_button_init (fun _ => none)) 7).2
        = PressResult.rejectedSelf
      ∨ (welcome_button_callback 7 1 (welcome_button_init (fun _ => none)) 7).2
        = PressResult.rejectedRepeat) :=
  ⟨Or.inl rfl,
    (c5_theorem 7 1 (welcome_button_init (fun _ => none)) 7 (Or.inl rfl)).1,
    (c5_theorem 7 1 (welcome_button_init (fun _ => none)) 7 (Or.inl rfl)).2⟩

/-- C6: over any press sequence on a freshly created announcement button, the
greeter list stays duplicate-free and never contains the greeted member; each
eligible presser's stored counter for this guild grows by exactly 1 whether
they pressed once or many times (and by 0 if they never pressed or are the
greeted member); and every stored counter, for every (guild, greeter) pair, is
monotonically non-decreasing over the sequence. -/
theorem c6_theorem (db : GreetDB) (m g : Nat) (presses : List Nat) :
    (runPresses m g (welcome_button_init db) presses).greeters.Nodup
    ∧ m ∉ (runPresses m g (welcome_button_init db) presses).greeters
    ∧ (∀ u, get_greet_count (runPresses m g (welcome_button_init db) presses).db g u
        = get_greet_count db g u + if u ≠ m ∧ u ∈ presses then 1 else 0)
    ∧ (∀ k : Nat × Nat, get_greet_count db k.1 k.2
        ≤ get_greet_count (runPresses m g (welcome_button_init db) presses).db k.1 k.2) := by
  refine ⟨?_, ?_, ?_, ?_⟩
  · exact runPresses_nodup m g presses _ (by simp [welcome_button_init])
  · intro hmem
    rcases (runPresses_mem m g presses (welcome_button_init db) m).mp hmem with h | ⟨_, hm⟩
    · simp [welcome_button_init] at h
    · exact hm rfl
  · intro u
    have hdb := runPresses_db m g presses (welcome_button_init db) u
    unfold get_greet_count
    rw [hdb]
    by_cases hc : u ≠ m ∧ u ∈ presses
    · rw [if_pos ⟨hc.1, hc.2, by simp [welcome_button_init]⟩, if_pos hc]
      simp [welcome_button_init]
    · rw [if_neg (fun hq => hc ⟨hq.1, hq.2.1⟩), if_neg hc]
      simp [welcome_button_init]
  · intro k
    have := runPresses_db_mono m g presses (welcome_button_init db) k
    simpa [get_greet_count, welcome_button_init] using this

/-- C6 witness: concrete instantiation — user 3 presses twice and user 4 once
on member 2's announcement in guild 1. -/
theorem c6_witness :
    (runPresses 2 1 (welcome_button_init (fun _ => none)) [3, 3, 4]).greeters.Nodup
    ∧ 2 ∉ (runPresses 2 1 (welcome_button_init (fun _ => none)) [3, 3, 4]).greeters
    ∧ (∀ u, get_greet_count (runPresses 2 1 (welcome_button_init (fun _ => none)) [3, 3, 4]).db 1 u
        = get_greet_count (fun _ => none) 1 u + if u ≠ 2 ∧ u ∈ [3, 3, 4] then 1 else 0)
    ∧ (∀ k : Nat × Nat, get_greet_count (fun _ => none) k.1 k.2
        ≤ get_greet_count (runPresses 2 1 (welcome_button_init (fun _ => none)) [3, 3, 4]).db k.1 k.2) :=
  c6_theorem (fun _ => none) 2 1 [3, 3, 4]

/-- Label shown for a greeter count of `n`: the creation label for an empty
list (lines 501-504), the refreshed label of line 525 otherwise.  The button's
label always equals `labelFor` of its greeter-list length. -/
def labelFor (n : Nat) : String :=
  if n = 0 then "👋 Welcome" else welcomed_label n

/-- Shared helper: press sequences preserve the label invariant. -/
theorem runPresses_label (m g : Nat) (presses : List Nat) :
    ∀ s : CallbackState, s.label = labelFor s.greeters.length →
      (runPresses m g s presses).label
        = labelFor (runPresses m g s presses).greeters.length := by
  induction presses with
  | nil =>
    intro s h
    exact h
  | cons p ps ih =>
    intro s h
    have hrun : runPresses m g s (p :: ps)
        = runPresses m g (welcome_button_callback m g s p).1 ps := rfl
    rw [hrun]
    apply ih
    rw [step_label, step_greeters]
    by_cases h1 : p = m ∨ p ∈ s.greeters
    · rw [if_pos h1, if_pos h1]
      exact h
    · rw [if_neg h1, if_neg h1]
      simp [labelFor]

/-- C9: the displayed button label always reflects the current length of the
greeter list — it equals `labelFor (length of greeters)` at creation, when the
list is empty, and after any sequence of presses starting from any state
satisfying the invariant. -/
theorem c9_theorem (db : GreetDB) (m g : Nat) (presses : List Nat)
    (s : CallbackState) (h : s.label = labelFor s.greeters.length) :
    (welcome_button_init db).label = labelFor (welcome_button_init db).greeters.length
    ∧ (runPresses m g s presses).label
      = labelFor (runPresses m g s presses).greeters.length :=
  ⟨rfl, runPresses_label m g presses s h⟩

/-- C9 witness: the invariant evaluated after two distinct greeters pressed. -/
theorem c9_witness :
    (welcome_button_init (fun _ => none)).label
      = labelFor (welcome_button_init (fun _ => none)).greeters.length
    ∧ (runPresses 2 1 (welcome_button_init (fun _ => none)) [3, 3, 4]).label
      = labelFor (runPresses 2 1 (welcome_button_init (fun _ => none)) [3, 3, 4]).greeters.length :=
  c9_theorem (fun _ => none) 2 1 [3, 3, 4] (welcome_button_init (fun _ => none)) rfl

/-- Outcome reported by the `welcome-count` command (lines 278-288). -/
inductive CountReport
  | notWelcomed
  | welcomed (n : Int)
  deriving DecidableEq

/-- The `welcome-count` command body (lines 280-288) for the resolved target:
report "has not welcomed anyone" when the count is not positive, otherwise
report the count. -/
def greet_count_report (db : GreetDB) (g target : Nat) : CountReport :=
  if get_greet_count db g target ≤ 0 then CountReport.notWelcomed
  else CountReport.welcomed (get_greet_count db g target)

/-- C10: for a (guild, greeter) pair with no stored row, `get_greet_count`
returns 0 — an actual value, not an error — and the `welcome-count` command
consequently reports that the member has not welcomed anyone. -/
theorem c10_theorem (db : GreetDB) (g u : Nat) (h : db (g, u) = none) :
    get_greet_count db g u = 0
    ∧ greet_count_report db g u = CountReport.notWelcomed := by
  unfold greet_count_report get_greet_count
  rw [h]
  simp

/-- C10 witness: the empty counter table. -/
theorem c10_witness :
    (fun _ => none : GreetDB) (1, 2) = none
    ∧ get_greet_count (fun _ => none) 1 2 = 0
    ∧ greet_count_report (fun _ => none) 1 2 = CountReport.notWelcomed :=
  ⟨rfl, (c10_theorem (fun _ => none) 1 2 rfl).1, (c10_theorem (fun _ => none) 1 2 rfl).2⟩

/-- Opening brace character. -/
def lbrace : Char := Char.ofNat 123

/-- Closing brace character. -/
def rbrace : Char := Char.ofNat 125

/-- Backslash character. -/
def bslash : Char := Char.ofNat 92

/-- The keyword substitutions passed to `message.format` on line 119: the keys
member, server and mention (built on lines 112-116 from the member's display
name, the guild name and the member's mention token); any other field name
raises, as Python `str.format` does on a missing key. -/
def valsOf (m s mn : List Char) (name : List Char) : Option (List Char) :=
  if name = "member".toList then some m
  else if name = "server".toList then some s
  else if name = "mention".toList then some mn
  else none

/-- Scanner mode of the `str.format` template scan: plain text, just after an
opening brace, inside a field name, just after a closing brace, or failed
(Python raises on a lone closing brace, an empty or unknown field name, and a
nested opening brace). -/
inductive FmtMode
  | normal
  | sawL
  | inField (acc : List Char)
  | sawR
  | failed

/-- Scanner state: current mode and output accumulated so far. -/
structure FmtState where
  mode : FmtMode
  out : List Char

/-- One step of the `str.format` scan (keyword-fields-only fragment, which is
all the templates of this module can use): doubled braces escape to a literal
brace, a field name delimited by braces is replaced by its value, and the
error cases become the failed mode. -/
def fmtStep (vals : List Char → Option (List Char)) (st : FmtState) (c : Char) :
    FmtState :=
  match st.mode with
  | FmtMode.failed => st
  | FmtMode.normal =>
    if c = lbrace then { st with mode := FmtMode.sawL }
    else if c = rbrace then { st with mode := FmtMode.sawR }
    else { st with out := st.out ++ [c] }
  | FmtMode.sawL =>
    if c = lbrace then { mode := FmtMode.normal, out := st.out ++ [lbrace] }
    else if c = rbrace then { st with mode := FmtMode.failed }
    else { st with mode := FmtMode.inField [c] }
  | FmtMode.inField acc =>
    if c = rbrace then
      match vals acc with
      | some v => { mode := FmtMode.normal, out := st.out ++ v }
      | none => { st with mode := FmtMode.failed }
    else if c = lbrace then { st with mode := FmtMode.failed }
    else { st with mode := FmtMode.inField (acc ++ [c]) }
  | FmtMode.sawR =>
    if c = rbrace then { mode := FmtMode.normal, out := st.out ++ [rbrace] }
    else { st with mode := FmtMode.failed }

/-- `message.format(**data)` of line 119: run the scan over the template;
`none` models the raised exception (caught on line 136, making the send fail). -/
def pyFormat (vals : List Char → Option (List Char)) (tpl : List Char) :
    Option (List Char) :=
  match tpl.foldl (fmtStep vals) { mode := FmtMode.normal, out := [] } with
  | ⟨FmtMode.normal, o⟩ => some o
  | _ => none

/-- `.replace` of the two-character backslash-n sequence by a newline
(line 119): scan left to right, replacing each non-overlapping occurrence. -/
def convertEsc : List Char → List Char
  | [] => []
  | [c] => [c]
  | c1 :: c2 :: rest =>
    if c1 = bslash ∧ c2 = 'n' then Char.ofNat 10 :: convertEsc rest
    else c1 :: convertEsc (c2 :: rest)

/-- The embed-title rendering of `send_formatted_message` (line 119): format
the template with the three keyword values, then convert escaped newlines. -/
def renderMessage (tpl m s mn : List Char) : Option (List Char) :=
  (pyFormat (valsOf m s mn) tpl).map convertEsc

/-- Structured template item: a literal character or one of the three
documented placeholders. -/
inductive TItem
  | lit (c : Char)
  | member
  | server
  | mention
  deriving DecidableEq

/-- Raw text of one template item: placeholders are spelled as their field
name between braces. -/
def flattenItem : TItem → List Char
  | TItem.lit c => [c]
  | TItem.member => lbrace :: ("member".toList ++ [rbrace])
  | TItem.server => lbrace :: ("server".toList ++ [rbrace])
  | TItem.mention => lbrace :: ("mention".toList ++ [rbrace])

/-- Raw text of a structured template. -/
def flattenT (items : List TItem) : List Char :=
  (items.map flattenItem).flatten

/-- Specification-side substitution: each placeholder item becomes its value,
literals stay. -/
def substItem (m s mn : List Char) : TItem → List Char
  | TItem.lit c => [c]
  | TItem.member => m
  | TItem.server => s
  | TItem.mention => mn

/-- Specification-side rendering of a structured template. -/
def substT (items : List TItem) (m s mn : List Char) : List Char :=
  (items.map (substItem m s mn)).flatten

/-- Shared helper: scanning the raw text of one brace-free item from normal
mode appends exactly its substituted value. -/
theorem fmt_item (m s mn out : List Char) (it : TItem)
    (h : ∀ c, it = TItem.lit c → c ≠ lbrace ∧ c ≠ rbrace) :
    List.foldl (fmtStep (valsOf m s mn)) { mode := FmtMode.normal, out := out }
        (flattenItem it)
      = { mode := FmtMode.normal, out := out ++ substItem m s mn it } := by
  cases it with
  | lit c =>
    obtain ⟨h1, h2⟩ := h c rfl
    simp [flattenItem, substItem, fmtStep, h1, h2]
  | member => rfl
  | server => rfl
  | mention => rfl

/-- Shared helper: scanning the raw text of a brace-free structured template
from normal mode appends exactly its substituted rendering. -/
theorem fmt_flatten (m s mn : List Char) (items : List TItem) :
    ∀ out : List Char,
      (∀ c, TItem.lit c ∈ items → c ≠ lbrace ∧ c ≠ rbrace) →
      List.foldl (fmtStep (valsOf m s mn)) { mode := FmtMode.normal, out := out }
          (flattenT items)
        = { mode := FmtMode.normal, out := out ++ substT items m s mn } := by
  induction items with
  | nil =>
    intro out h
    simp [flattenT, substT]
  | cons it rest ih =>
    intro out h
    have h1 : ∀ c, it = TItem.lit c → c ≠ lbrace ∧ c ≠ rbrace := by
      intro c hc
      exact h c (by rw [← hc]; exact List.mem_cons_self it rest)
    have h2 : ∀ c, TItem.lit c ∈ rest → c ≠ lbrace ∧ c ≠ rbrace :=
      fun c hc => h c (List.mem_cons_of_mem _ hc)
    have hsplit : flattenT (it :: rest) = flattenItem it ++ flattenT rest := by
      simp [flattenT]
    rw [hsplit, List.foldl_append, fmt_item m s mn out it h1, ih _ h2]
    simp [substT, List.append_assoc]

/-- C7: rendering a stored template made of literal text (brace-free) and the
three documented placeholders substitutes the member placeholder by the display
name, the server placeholder by the community name and the mention placeholder
by the mention token, and then converts escaped newlines: the result is exactly
the escape-conversion of the substituted text, and the conversion turns each
backslash-n pair into a real newline character. -/
theorem c7_theorem (items : List TItem) (m s mn : List Char)
    (h : ∀ c, TItem.lit c ∈ items → c ≠ lbrace ∧ c ≠ rbrace) :
    renderMessage (flattenT items) m s mn = some (convertEsc (substT items m s mn))
    ∧ ∀ rest : List Char,
        convertEsc (bslash :: 'n' :: rest) = Char.ofNat 10 :: convertEsc rest := by
  constructor
  · unfold renderMessage pyFormat
    rw [fmt_flatten m s mn items [] h]
    simp
  · intro rest
    simp [convertEsc]

/-- C7 witness: the template Hi backslash-n member-placeholder rendered for
display name Ann. -/
theorem c7_witness :
    renderMessage
        (flattenT [TItem.lit 'H', TItem.lit 'i', TItem.lit bslash, TItem.lit 'n', TItem.member])
        "Ann".toList "Guild".toList "AnnMention".toList
      = some (convertEsc
          (substT [TItem.lit 'H', TItem.lit 'i', TItem.lit bslash, TItem.lit 'n', TItem.member]
            "Ann".toList "Guild".toList "AnnMention".toList)) :=
  (c7_theorem [TItem.lit 'H', TItem.lit 'i', TItem.lit bslash, TItem.lit 'n', TItem.member]
    "Ann".toList "Guild".toList "AnnMention".toList
    (by intro c hc; simp at hc; rcases hc with rfl | rfl | rfl | rfl <;> decide)).1

/-- A full `welcome_config` row (lines 38-50); every column may be NULL in
store terms, and the booleans/titles/durations carry the values the commands
write. -/
structure ConfigRow where
  join_enabled : Option Bool
  leave_enabled : Option Bool
  join_channel_id : Option Nat
  leave_channel_id : Option Nat
  join_title : Option String
  leave_title : Option String
  join_duration : Option Int
  leave_duration : Option Int
  deriving DecidableEq

/-- The join `settings` command `set_join_config` (lines 296-335) acting on the
community's config row: with every argument omitted it only views the config
(no write); otherwise it merges each supplied argument over the old value —
taken from the existing row, or from the Python-side defaults Welcome/True/0
and no channel when no row existed (lines 317-321) — and upserts.  The ON
CONFLICT update (line 330) sets only the four join columns; a fresh insert
(line 328) fills the unspecified leave columns with the table defaults of
lines 42, 44, 46 and 48. -/
def set_join_config (row : Option ConfigRow) (channel : Option Nat)
    (title : Option String) (enable : Option Bool) (duration : Option Int) :
    Option ConfigRow :=
  if channel = none ∧ title = none ∧ enable = none ∧ duration = none then row
  else
    let oldC : Option Nat := match row with | some r => r.join_channel_id | none => none
    let oldT : Option String := match row with | some r => r.join_title | none => some "Welcome"
    let oldE : Option Bool := match row with | some r => r.join_enabled | none => some true
    let oldD : Option Int := match row with | some r => r.join_duration | none => some 0
    let newC : Option Nat := match channel with | some c => some c | none => oldC
    let newT : Option String := match title with | some t => some t | none => oldT
    let newE : Option Bool := match enable with | some e => some e | none => oldE
    let newD : Option Int := match duration with | some d => some d | none => oldD
    match row with
    | some r =>
      some { r with join_channel_id := newC, join_title := newT,
                    join_enabled := newE, join_duration := newD }
    | none =>
      some { join_enabled := newE, leave_enabled := some true,
             join_channel_id := newC, leave_channel_id := none,
             join_title := newT, leave_title := some "Goodbye",
             join_duration := newD, leave_duration := some 0 }

/-- C8: when at least one argument is supplied, the join `settings` command
writes a row in which every supplied field carries the supplied value, every
omitted join field keeps its prior value (or the documented default when no
row existed), and — when a row existed — all four leave-direction columns are
exactly the prior row's. -/
theorem c8_theorem (row : Option ConfigRow) (channel : Option Nat)
    (title : Option String) (enable : Option Bool) (duration : Option Int)
    (h : ¬(channel = none ∧ title = none ∧ enable = none ∧ duration = none)) :
    ∃ r2, set_join_config row channel title enable duration = some r2
    ∧ (∀ r0, row = some r0 →
        r2.leave_enabled = r0.leave_enabled
        ∧ r2.leave_channel_id = r0.leave_channel_id
        ∧ r2.leave_title = r0.leave_title
        ∧ r2.leave_duration = r0.leave_duration)
    ∧ (channel = none → r2.join_channel_id
        = (match row with | some r0 => r0.join_channel_id | none => none))
    ∧ (title = none → r2.join_title
        = (match row with | some r0 => r0.join_title | none => some "Welcome"))
    ∧ (enable = none → r2.join_enabled
        = (match row with | some r0 => r0.join_enabled | none => some true))
    ∧ (duration = none → r2.join_duration
        = (match row with | some r0 => r0.join_duration | none => some (0 : Int)))
    ∧ (∀ cv, channel = some cv → r2.join_channel_id = some cv)
    ∧ (∀ tv, title = some tv → r2.join_title = some tv)
    ∧ (∀ ev, enable = some ev → r2.join_enabled = some ev)
    ∧ (∀ dv, duration = some dv → r2.join_duration = some dv) := by
  unfold set_join_config
  rw [if_neg h]
  cases row with
  | none =>
    refine ⟨_, rfl, ?_, ?_, ?_, ?_, ?_, ?_, ?_, ?_, ?_⟩
    · intro r0 h0
      exact Option.noConfusion h0
    · rintro rfl
      rfl
    · rintro rfl
      rfl
    · rintro rfl
      rfl
    · rintro rfl
      rfl
    · rintro cv rfl
      rfl
    · rintro tv rfl
      rfl
    · rintro ev rfl
      rfl
    · rintro dv rfl
      rfl
  | some r0 =>
    refine ⟨_, rfl, ?_, ?_, ?_, ?_, ?_, ?_, ?_, ?_, ?_⟩
    · intro r1 h1
      injection h1 with h1
      subst h1
      exact ⟨rfl, rfl, rfl, rfl⟩
    · rintro rfl
      rfl
    · rintro rfl
      rfl
    · rintro rfl
      rfl
    · rintro rfl
      rfl
    · rintro cv rfl
      rfl
    · rintro tv rfl
      rfl
    · rintro ev rfl
      rfl
    · rintro dv rfl
      rfl

/-- Concrete config row used in the C8 witness. -/
def rowCfg : ConfigRow :=
  { join_enabled := some false, leave_enabled := some true,
    join_channel_id := some 3, leave_channel_id := some 4,
    join_title := some "Hello", leave_title := some "Bye",
    join_duration := some 5, leave_duration := some 6 }

/-- C8 witness: supplying only the channel updates it, keeps the join title
and leaves the leave title untouched. -/
theorem c8_witness :
    ¬((some 9 : Option Nat) = none ∧ (none : Option String) = none
      ∧ (none : Option Bool) = none ∧ (none : Option Int) = none)
    ∧ ∃ r2, set_join_config (some rowCfg) (some 9) none none none = some r2
        ∧ r2.leave_title = some "Bye"
        ∧ r2.join_title = some "Hello"
        ∧ r2.join_channel_id = some 9 := by
  refine ⟨by simp, ?_⟩
  obtain ⟨r2, heq, hleave, hcn, htn, hen, hdn, hcs, hts, hes, hds⟩ :=
    c8_theorem (some rowCfg) (some 9) none none none (by simp)
  exact ⟨r2, heq, ((hleave rowCfg rfl).2.2.1).trans rfl, (htn rfl).trans rfl, hcs 9 rfl⟩
